import Mathlib

/- Verification development for the arxindle paper-to-PDF conversion tool.
   The Python source (src/arxindle.py) is shallowly embedded below: every
   regular-expression substitution is translated into an executable scanner
   over `List Char`, and the pure part of the processing pipeline into
   functions over lists of lines.  Brace characters inside string literals
   are written with the \x7b and \x7d escapes. -/

/- ===== character classes (ASCII reading of Python's \d, \w, \s) ===== -/

def isSpaceChar (c : Char) : Bool :=
  c == ' ' || c == '\t' || c == '\n' || c == '\r' || c == '\x0b' || c == '\x0c'

def isWordChar (c : Char) : Bool :=
  c.isAlpha || c.isDigit || c == '_'

/- Python str.strip(): remove leading and trailing whitespace. -/
def pyStrip (l : List Char) : List Char :=
  ((l.dropWhile isSpaceChar).reverse.dropWhile isSpaceChar).reverse

/- ===== literal matching (used by every pattern scanner) ===== -/

/- Consume the literal `lit` at the head of `s`, returning the rest. -/
def matchLit : List Char → List Char → Option (List Char)
  | [], s => some s
  | _ :: _, [] => none
  | l :: ls, c :: s => if c = l then matchLit ls s else none

/- ===== ARXIV_ID_PATTERN (src/arxindle.py lines 17-33) =====
   (?:https?://(?:www\.)?arxiv\.org/(?:abs|pdf|e-print)/)?
   (?P<id>\d{4}\.\d{4,5}(?:v\d{1,2})?)                                   -/

/- Exactly n decimal digits. -/
def matchNDigits : Nat → List Char → Option (List Char × List Char)
  | 0, s => some ([], s)
  | _ + 1, [] => none
  | n + 1, c :: s =>
    if c.isDigit then (matchNDigits n s).map (fun p => (c :: p.1, p.2)) else none

/- (?:v\d{1,2})? body: literal v then one or two digits, greedy. -/
def matchVer : List Char → Option (List Char × List Char)
  | 'v' :: c :: c2 :: rest =>
    if c.isDigit then
      if c2.isDigit then some (['v', c, c2], rest) else some (['v', c], c2 :: rest)
    else none
  | 'v' :: c :: [] => if c.isDigit then some (['v', c], []) else none
  | _ => none

/- \d{4}\.\d{4,5}(?:v\d{1,2})? with greedy quantifiers; nothing follows the
   group in the pattern, so maximal munch is exact. -/
def matchIdCore (s : List Char) : Option (List Char × List Char) :=
  match matchNDigits 4 s with
  | none => none
  | some (d1, r1) =>
    match r1 with
    | '.' :: r2 =>
      (match matchNDigits 4 r2 with
       | none => none
       | some (d2, r3) =>
         let p : List Char × List Char :=
           match r3 with
           | c :: r4 => if c.isDigit then (d2 ++ [c], r4) else (d2, r3)
           | [] => (d2, [])
         match matchVer p.2 with
         | some (v, r5) => some (d1 ++ '.' :: p.1 ++ v, r5)
         | none => some (d1 ++ '.' :: p.1, p.2))
    | _ => none

/- The optional URL part https?://(?:www\.)?arxiv\.org/(?:abs|pdf|e-print)/.
   The regex backtracking on (?:www\.)? is vacuous here: if "www." was
   consumed, "arxiv." cannot match at the same position, so the simple
   consume-if-present reading below is equivalent. -/
def matchUrlPart (s : List Char) : Option (List Char) :=
  match matchLit (("http").data) s with
  | none => none
  | some r =>
    match (match matchLit (("s://").data) r with
           | some r2 => some r2
           | none => matchLit (("://").data) r) with
    | none => none
    | some r2 =>
      let r3 := match matchLit (("www.").data) r2 with
                | some r4 => r4
                | none => r2
      match matchLit (("arxiv.org/").data) r3 with
      | none => none
      | some r4 =>
        match matchLit (("abs/").data) r4 with
        | some r5 => some r5
        | none =>
          match matchLit (("pdf/").data) r4 with
          | some r5 => some r5
          | none => matchLit (("e-print/").data) r4

/- One attempt of the whole pattern at a fixed position: the URL part is an
   optional greedy group, so it is tried first and dropped on failure. -/
def tryMatchAt (s : List Char) : Option (List Char) :=
  match matchUrlPart s with
  | some r =>
    match matchIdCore r with
    | some (g, _) => some g
    | none => (matchIdCore s).map (fun p => p.1)
  | none => (matchIdCore s).map (fun p => p.1)

/- re.search: leftmost position whose attempt succeeds. -/
def regexSearchAux : List Char → Option (List Char)
  | [] => tryMatchAt []
  | c :: cs =>
    match tryMatchAt (c :: cs) with
    | some g => some g
    | none => regexSearchAux cs

/- parse_arxiv_id (src/arxindle.py lines 36-57). -/
def parse_arxiv_id (url_or_id : String) : Except String String :=
  match regexSearchAux (pyStrip url_or_id.data) with
  | some g => .ok ⟨g⟩
  | none => .error ("Invalid ArXiv URL or ID: " ++ url_or_id)

/- ===== regex-substitution scanners =====
   Each re.sub over a pattern P is embedded as a left-to-right scanner: at
   every position try P (with the greedy/backtracking behaviour resolved,
   which for these patterns is plain maximal munch); on success emit the
   replacement and resume after the match, otherwise emit one character and
   advance.  The scanners recurse on a fuel argument initialised to the
   string length; every step consumes at least one character and one unit
   of fuel, so the fuel never runs out. -/

/- The optional group (\s*\[[^\]]*\])? of the \twocolumn pattern, tried at
   the position right after the literal: returns (matched text, rest). -/
def twocolGroup (s : List Char) : Option (List Char × List Char) :=
  let ws := s.takeWhile isSpaceChar
  match s.dropWhile isSpaceChar with
  | '[' :: r2 =>
    (match r2.dropWhile (fun c => c != ']') with
     | ']' :: r4 => some (ws ++ '[' :: r2.takeWhile (fun c => c != ']') ++ [']'], r4)
     | _ => none)
  | _ => none

def kwTwocolumn : List Char := ("\\twocolumn").data

/- re.sub(r"\\twocolumn(\s*\[[^\]]*\])?", repl, s) for a replacement
   function repl of the optional group. -/
def subTwocolumnF (repl : Option (List Char) → List Char) : Nat → List Char → List Char
  | 0, s => s
  | _ + 1, [] => []
  | fuel + 1, c :: cs =>
    match matchLit kwTwocolumn (c :: cs) with
    | some r =>
      (match twocolGroup r with
       | some (g, rest) => repl (some g) ++ subTwocolumnF repl fuel rest
       | none => repl none ++ subTwocolumnF repl fuel r)
    | none => c :: subTwocolumnF repl fuel cs

def subTwocolumn (repl : Option (List Char) → List Char) (s : List Char) : List Char :=
  subTwocolumnF repl s.length s

/- replace_twocolumn (src/arxindle.py lines 153-158): the style-file
   replacement, Python m.group(1)[1:-1]. -/
def replace_twocolumn (g : Option (List Char)) : List Char :=
  match g with
  | some grp => ("\\onecolumn ").data ++ (grp.drop 1).dropLast
  | none => ("\\onecolumn").data

/- replace_twocolumn_tex (src/arxindle.py lines 222-226): the main-document
   replacement, Python m.group(1).strip()[1:-1]. -/
def replace_twocolumn_tex (g : Option (List Char)) : List Char :=
  match g with
  | some grp => ("\\onecolumn ").data ++ ((pyStrip grp).drop 1).dropLast
  | none => ("\\onecolumn").data

def replaceTwocolumnSty (s : String) : String := ⟨subTwocolumn replace_twocolumn s.data⟩

def replaceTwocolumnTexLine (s : String) : String := ⟨subTwocolumn replace_twocolumn_tex s.data⟩

def lbrace : Char := Char.ofNat 123

def rbrace : Char := Char.ofNat 125

def kwNewgeometry : List Char := ("\\newgeometry").data

/- Try \newgeometry\s*\{[^}]*\} at the current position. -/
def newgeomMatch (s : List Char) : Option (List Char) :=
  match matchLit kwNewgeometry s with
  | none => none
  | some r =>
    match r.dropWhile isSpaceChar with
    | c :: r3 =>
      if c == lbrace then
        match r3.dropWhile (fun d => d != rbrace) with
        | d :: r5 => if d == rbrace then some r5 else none
        | _ => none
      else none
    | _ => none

def newgeomRepl : List Char := ("% newgeometry disabled by arxindle").data

/- re.sub(r"\\newgeometry\s*\{[^}]*\}", "% newgeometry disabled by arxindle", s)
   as applied per line in the main-document pass (src/arxindle.py 215-219). -/
def subNewgeometryF : Nat → List Char → List Char
  | 0, s => s
  | _ + 1, [] => []
  | fuel + 1, c :: cs =>
    match newgeomMatch (c :: cs) with
    | some rest => newgeomRepl ++ subNewgeometryF fuel rest
    | none => c :: subNewgeometryF fuel cs

def subNewgeometry (s : List Char) : List Char := subNewgeometryF s.length s

def isFracChar (c : Char) : Bool := c.isDigit || c == '.'

def kwIncludegraphics : List Char := ("\\includegraphics[width=").data

/- Try \includegraphics\[width=([.\d]+)\\(line|text)width\] at the current
   position, returning the captured fraction and the rest. -/
def igMatch (s : List Char) : Option (List Char × List Char) :=
  match matchLit kwIncludegraphics s with
  | none => none
  | some r =>
    let f := r.takeWhile isFracChar
    if f.isEmpty then none
    else
      match (r.dropWhile isFracChar) with
      | '\\' :: r3 =>
        (match matchLit (("linewidth]").data) r3 with
         | some r4 => some (f, r4)
         | none =>
           match matchLit (("textwidth]").data) r3 with
           | some r4 => some (f, r4)
           | none => none)
      | _ => none

def igRepl (f : List Char) : List Char :=
  ("\\includegraphics[width=").data ++ f ++ ("\\textwidth,height=").data ++ f
    ++ ("\\textheight,keepaspectratio]").data

/- re.sub of the image-scaling pattern (src/arxindle.py lines 254-259). -/
def subIncludegraphicsF : Nat → List Char → List Char
  | 0, s => s
  | _ + 1, [] => []
  | fuel + 1, c :: cs =>
    match igMatch (c :: cs) with
    | some (f, rest) => igRepl f ++ subIncludegraphicsF fuel rest
    | none => c :: subIncludegraphicsF fuel cs

def subIncludegraphics (s : List Char) : List Char := subIncludegraphicsF s.length s

def imgSubLine (s : String) : String := ⟨subIncludegraphics s.data⟩

/- For \b boundaries the scanners carry one bit: whether the previous
   character of the original string is a word character. -/
def boundAfter (l : List Char) : Bool :=
  match l.head? with
  | none => true
  | some x => !isWordChar x

/- re.sub(r"\b\d+pt\b", "", s) (src/arxindle.py line 200).  Only the maximal
   digit run can match (a shorter \d+ is followed by a digit, not by p). -/
def subPtF : Bool → Nat → List Char → List Char
  | _, 0, s => s
  | _, _ + 1, [] => []
  | prevW, fuel + 1, c :: cs =>
    if !prevW && c.isDigit then
      match (c :: cs).dropWhile Char.isDigit with
      | 'p' :: 't' :: r2 =>
        if boundAfter r2 then subPtF true fuel r2
        else c :: subPtF (isWordChar c) fuel cs
      | _ => c :: subPtF (isWordChar c) fuel cs
    else c :: subPtF (isWordChar c) fuel cs

def subPt (s : List Char) : List Char := subPtF false s.length s

/- re.sub(r"\b\w+<tok>\b", "", s) for tok in \x7bcolumn, paper\x7d
   (src/arxindle.py lines 201-202).  A match must start at a word boundary,
   i.e. at the start of a maximal word run W; backtracking of the greedy \w+
   succeeds exactly when W ends in tok and is strictly longer than it, and
   the whole of W is consumed. -/
def subWordTokF (tok : List Char) : Bool → Nat → List Char → List Char
  | _, 0, s => s
  | _, _ + 1, [] => []
  | prevW, fuel + 1, c :: cs =>
    if !prevW && isWordChar c then
      if tok.length + 1 ≤ ((c :: cs).takeWhile isWordChar).length
          && tok.isSuffixOf ((c :: cs).takeWhile isWordChar) then
        subWordTokF tok true fuel ((c :: cs).dropWhile isWordChar)
      else c :: subWordTokF tok (isWordChar c) fuel cs
    else c :: subWordTokF tok (isWordChar c) fuel cs

def subWordTok (tok : List Char) (s : List Char) : List Char :=
  subWordTokF tok false s.length s

/- re.sub(r"(?<=\[),", "", s) (src/arxindle.py line 203); the lookbehind
   inspects the original character before the scan position. -/
def subBracketComma : Option Char → List Char → List Char
  | _, [] => []
  | prev, c :: cs =>
    if c == ',' && prev == some '[' then subBracketComma (some ',') cs
    else c :: subBracketComma (some c) cs

/- re.sub(r",(?=[\],])", "", s) (src/arxindle.py line 204). -/
def subCommaBeforeClose : List Char → List Char
  | [] => []
  | c :: cs =>
    if c == ',' && (cs.head? == some ']' || cs.head? == some ',') then
      subCommaBeforeClose cs
    else c :: subCommaBeforeClose cs

def kwDocumentclass : List Char := ("\\documentclass").data

/- re.search(r"\\documentclass\s*\[", s) as a Boolean (line 207). -/
def hasDocclassOptList : List Char → Bool
  | [] => false
  | c :: cs =>
    (match matchLit kwDocumentclass (c :: cs) with
     | some r => (r.dropWhile isSpaceChar).head? == some '['
     | none => false)
    || hasDocclassOptList cs

/- re.sub(r"(\\documentclass\s*\[)", r"\1onecolumn,", s) (line 208). -/
def subDocclassOnecolF : Nat → List Char → List Char
  | 0, s => s
  | _ + 1, [] => []
  | fuel + 1, c :: cs =>
    match matchLit kwDocumentclass (c :: cs) with
    | some r =>
      (match r.dropWhile isSpaceChar with
       | '[' :: r3 =>
         kwDocumentclass ++ r.takeWhile isSpaceChar ++ '[' :: ("onecolumn,").data
           ++ subDocclassOnecolF fuel r3
       | _ => c :: subDocclassOnecolF fuel cs)
    | none => c :: subDocclassOnecolF fuel cs

def subDocclassOnecol (s : List Char) : List Char := subDocclassOnecolF s.length s

/- re.sub(r"(\\documentclass)\s*(\{)", r"\1[onecolumn]\2", s) (line 211);
   the whitespace between the two groups is dropped by the replacement. -/
def subDocclassNewOptsF : Nat → List Char → List Char
  | 0, s => s
  | _ + 1, [] => []
  | fuel + 1, c :: cs =>
    match matchLit kwDocumentclass (c :: cs) with
    | some r =>
      (match r.dropWhile isSpaceChar with
       | d :: r3 =>
         if d == lbrace then
           kwDocumentclass ++ '[' :: ("onecolumn]").data ++ lbrace
             :: subDocclassNewOptsF fuel r3
         else c :: subDocclassNewOptsF fuel cs
       | _ => c :: subDocclassNewOptsF fuel cs)
    | none => c :: subDocclassNewOptsF fuel cs

def subDocclassNewOpts (s : List Char) : List Char := subDocclassNewOptsF s.length s

/- The whole line-0 rewrite of the main-document pass
   (src/arxindle.py lines 199-211), in source order. -/
def processDocclassLine (s : List Char) : List Char :=
  let s1 := subPt s
  let s2 := subWordTok (("column").data) s1
  let s3 := subWordTok (("paper").data) s2
  let s4 := subBracketComma none s3
  let s5 := subCommaBeforeClose s4
  if hasDocclassOptList s5 then subDocclassOnecol s5 else subDocclassNewOpts s5

/- ===== process_tex, pure part (src/arxindle.py lines 182-263) ===== -/

/- String startswith, via the literal matcher so that it is kernel-reducible. -/
def strStartsWith (pre s : String) : Bool := (matchLit pre.data s.data).isSome

/- Python str.split("\n"): always at least one piece. -/
def splitOnNl : List Char → List (List Char)
  | [] => [[]]
  | c :: cs =>
    match splitOnNl cs with
    | [] => [[c]]
    | h :: t => if c = '\n' then [] :: h :: t else (c :: h) :: t

def splitLinesStr (s : String) : List String := (splitOnNl s.data).map (fun l => (⟨l⟩ : String))

/- "\n".join. -/
def joinNl : List String → String
  | [] => ("")
  | [s] => s
  | s :: rest => s ++ ("\n") ++ joinNl (rest)

/- ",".join. -/
def joinComma : List String → String
  | [] => ("")
  | [s] => s
  | s :: rest => s ++ (",") ++ joinComma (rest)

def beginDocKw : String := "\\begin\x7bdocument\x7d"

/- Python truthiness of the comment/blank filter at line 197:
   not line.startswith("%") and line.strip(). -/
def pyTruthyLine (l : String) : Bool :=
  !(strStartsWith ("%") l) && !(pyStrip l.data).isEmpty

def filterLines (ls : List String) : List String := ls.filter pyTruthyLine

/- Per-line rewrites of the loop at lines 214-232: the \newgeometry
   substitution, then the \twocolumn substitution. -/
def transformLine (s : String) : String :=
  replaceTwocolumnTexLine ⟨subNewgeometry s.data⟩

/- Line 0 gets the document-class rewrite (lines 199-211) and then also the
   per-line rewrites, since the loop runs over every index. -/
def transformLines : List String → List String
  | [] => []
  | l0 :: rest => transformLine ⟨processDocclassLine l0.data⟩ :: rest.map transformLine

/- begindocs (line 235): indices of lines that start with \begin{document}. -/
def beginDocIdxs (src : List String) : List Nat :=
  (List.range src.length).filter (fun i => strStartsWith beginDocKw (src.getD i ("")))

def geometryStr (geo : List (String × String)) : String :=
  joinComma (geo.map (fun p => p.1 ++ "=" ++ p.2))

/- The five lines inserted at the body-start index (lines 242-251); the code
   inserts them one at a time at the same index, so they end up in reverse
   order of insertion. -/
def insertedLines (landscape : Bool) (geo : List (String × String)) : List String :=
  (if landscape then [("\\usepackage\x7bpdflscape\x7d\n")] else [])
    ++ [("\\pagestyle\x7bempty\x7d\n"),
        ("\\usepackage\x7btimes\x7d\n"),
        ("\\makeatletter\\@ifpackageloaded\x7bgeometry\x7d\x7b\x7d\x7b\\usepackage\x7bgeometry\x7d\x7d\\makeatother\n"),
        ("\\geometry\x7b" ++ geometryStr geo ++ "\x7d\n")]

/- The pure content transformation of process_tex on the split lines of the
   main document (lines 194-263): filter comments and blanks, rewrite, check
   for exactly one body-start marker, insert the geometry block, scale
   images.  Errors are the Python exceptions: the IndexError a fully
   filtered file would raise at src[0], and the ValueError for a marker
   count other than one. -/
def process_tex_lines (landscape : Bool) (geo : List (String × String))
    (lines : List String) : Except String (List String) :=
  match filterLines lines with
  | [] => .error ("IndexError: list index out of range")
  | l0 :: rest =>
    if (beginDocIdxs (transformLines (l0 :: rest))).length = 1 then
      .ok (((transformLines (l0 :: rest)).take
              ((beginDocIdxs (transformLines (l0 :: rest))).headD 0)
            ++ insertedLines landscape geo
            ++ (transformLines (l0 :: rest)).drop
              ((beginDocIdxs (transformLines (l0 :: rest))).headD 0)).map imgSubLine)
    else
      .error ("Expected 1 \\begin\x7bdocument\x7d, found "
        ++ toString (beginDocIdxs (transformLines (l0 :: rest))).length)

def process_tex (landscape : Bool) (geo : List (String × String))
    (content : String) : Except String (List String) :=
  process_tex_lines landscape geo (splitLinesStr content)

/- ===== main-file selection (src/arxindle.py lines 182-190) ===== -/

/- Substring containment, Python `needle in hay`. -/
def hasSubstr (needle : List Char) : List Char → Bool
  | [] => (matchLit needle []).isSome
  | c :: cs => (matchLit needle (c :: cs)).isSome || hasSubstr needle cs

/- Number of positions where `needle` occurs in `hay`. -/
def countOccur (needle : List Char) : List Char → Nat
  | [] => 0
  | c :: cs =>
    (if (matchLit needle (c :: cs)).isSome then 1 else 0) + countOccur needle cs

/- candidate.read_text().split("\n")[0]. -/
def firstLine (content : String) : String := (splitLinesStr content).headD ("")

/- The selection loop: the first candidate whose literal first line contains
   the substring "documentclass". -/
def findMainTex : List String → Option String
  | [] => none
  | f :: fs =>
    if hasSubstr (("documentclass").data) (firstLine f).data then some f
    else findMainTex fs

/- Modelled from the spec for comparison (the spec sentence says the
   candidate is selected by a document-class declaration on its first
   NON-TRIVIAL line): first comment/blank-filtered line instead of the
   literal first line. -/
def firstNonTrivialLine (content : String) : String :=
  (filterLines (splitLinesStr content)).headD ("")

def findMainTexSpec : List String → Option String
  | [] => none
  | f :: fs =>
    if hasSubstr (("\\documentclass").data) (firstNonTrivialLine f).data then some f
    else findMainTexSpec fs

/- ===== geometry settings and the CLI event trace ===== -/

/- geometric_settings as built in convert (src/arxindle.py lines 305-309);
   the margin, a Python float, is modelled by its decimal literal. -/
def geometricSettings (width height : Nat) (margin : String) : List (String × String) :=
  [(("paperwidth"), toString width ++ "in"),
   (("paperheight"), toString height ++ "in"),
   (("margin"), margin ++ "in")]

/- Observable actions of main() (src/arxindle.py lines 332-375), in program
   order.  Network requests and filesystem writes happen only inside
   convert(); conversion success is abstracted by a Boolean. -/
inductive MainEvent where
  | parseArgs
  | logSetup
  | marginCheck
  | usageErrorExit
  | normalizeOutputPath
  | checkBinaries
  | networkFetchMeta
  | networkFetchArchive
  | writeArchiveFile
  | extractArchive
  | rewriteSourceFiles
  | compilePasses
  | copyOutputFile
  | errorExitOne
  deriving DecidableEq, Repr

def isNetworkEvent : MainEvent → Bool
  | .networkFetchMeta => true
  | .networkFetchArchive => true
  | _ => false

def isFsWriteEvent : MainEvent → Bool
  | .writeArchiveFile => true
  | .extractArchive => true
  | .rewriteSourceFiles => true
  | .copyOutputFile => true
  | _ => false

/- Trace of main(): argparse, logging setup, the margin usage check
   (parser.error aborts), output-path normalization, converter construction
   (binary checks), then convert: fetch metadata, fetch archive, write and
   extract it, rewrite sources, compile, copy the PDF. -/
def mainEvents (margin : ℚ) (convOk : Bool) : List MainEvent :=
  [.parseArgs, .logSetup, .marginCheck]
    ++ (if 0 < margin ∧ margin < 1 then
          [.normalizeOutputPath, .checkBinaries, .networkFetchMeta,
           .networkFetchArchive, .writeArchiveFile, .extractArchive,
           .rewriteSourceFiles, .compilePasses]
            ++ (if convOk then [.copyOutputFile] else [.errorExitOne])
        else [.usageErrorExit])

/- ===== statement-side definitions ===== -/

/- The URL variants named by the spec: abs/, pdf/ or e-print/ paths, with or
   without http(s) scheme, with or without www., plus the raw id. -/
def urlWrappers : List String :=
  [(""),
   ("arxiv.org/abs/"), ("arxiv.org/pdf/"), ("arxiv.org/e-print/"),
   ("www.arxiv.org/abs/"), ("www.arxiv.org/pdf/"), ("www.arxiv.org/e-print/"),
   ("http://arxiv.org/abs/"), ("http://arxiv.org/pdf/"), ("http://arxiv.org/e-print/"),
   ("http://www.arxiv.org/abs/"), ("http://www.arxiv.org/pdf/"), ("http://www.arxiv.org/e-print/"),
   ("https://arxiv.org/abs/"), ("https://arxiv.org/pdf/"), ("https://arxiv.org/e-print/"),
   ("https://www.arxiv.org/abs/"), ("https://www.arxiv.org/pdf/"), ("https://www.arxiv.org/e-print/")]

/- A character list of the shape YYMM.NNNNN or YYMM.NNNNNvK: four digits, a
   dot, four or five digits, an optional v followed by one or two digits. -/
def validIdShape (l : List Char) : Prop :=
  ∃ a b c d n v,
    l = a :: b :: c :: d :: '.' :: (n ++ v) ∧
    (a.isDigit = true ∧ b.isDigit = true ∧ c.isDigit = true ∧ d.isDigit = true) ∧
    ((n.length = 4 ∨ n.length = 5) ∧ n.all Char.isDigit = true) ∧
    (v = [] ∨ (∃ p, p.isDigit = true ∧ v = ['v', p]) ∨
      (∃ p q, p.isDigit = true ∧ q.isDigit = true ∧ v = ['v', p, q]))

/- ===== helper lemmas ===== -/

theorem takeWhile_append_all {α} (p : α → Bool) (l r : List α) (h : l.all p = true) :
    (l ++ r).takeWhile p = l ++ r.takeWhile p := by
  induction l with
  | nil => simp
  | cons a t ih =>
    simp only [List.all_cons, Bool.and_eq_true] at h
    simp [List.takeWhile_cons, h.1, ih h.2]

theorem dropWhile_append_all {α} (p : α → Bool) (l r : List α) (h : l.all p = true) :
    (l ++ r).dropWhile p = r.dropWhile p := by
  induction l with
  | nil => simp
  | cons a t ih =>
    simp only [List.all_cons, Bool.and_eq_true] at h
    simp [List.dropWhile_cons, h.1, ih h.2]

theorem dropWhile_all_neg {α} (p : α → Bool) (l : List α)
    (h : l.all (fun c => !p c) = true) : l.dropWhile p = l := by
  induction l with
  | nil => simp
  | cons a t ih =>
    simp only [List.all_cons, Bool.and_eq_true, Bool.not_eq_true'] at h
    simp [List.dropWhile_cons, h.1]

theorem pyStrip_eq_self (l : List Char)
    (h : l.all (fun c => !isSpaceChar c) = true) : pyStrip l = l := by
  unfold pyStrip
  rw [dropWhile_all_neg _ _ h, dropWhile_all_neg, List.reverse_reverse]
  simpa using h

theorem isDigit_ne_of (a c : Char) (ha : a.isDigit = true) (hc : c.isDigit = false) :
    a ≠ c := by
  intro h
  subst h
  rw [ha] at hc
  exact Bool.noConfusion hc

theorem space_false_of_digit (a : Char) (ha : a.isDigit = true) :
    isSpaceChar a = false := by
  have h1 := isDigit_ne_of a ' ' ha (by decide)
  have h2 := isDigit_ne_of a '\t' ha (by decide)
  have h3 := isDigit_ne_of a '\n' ha (by decide)
  have h4 := isDigit_ne_of a '\r' ha (by decide)
  have h5 := isDigit_ne_of a '\x0b' ha (by decide)
  have h6 := isDigit_ne_of a '\x0c' ha (by decide)
  simp [isSpaceChar, h1, h2, h3, h4, h5, h6]

theorem matchLit_self_append (lit r : List Char) : matchLit lit (lit ++ r) = some r := by
  induction lit with
  | nil => simp [matchLit]
  | cons a t ih => simp [matchLit, ih]

theorem matchNDigits_four (a b c d : Char) (r : List Char)
    (ha : a.isDigit = true) (hb : b.isDigit = true) (hc : c.isDigit = true)
    (hd : d.isDigit = true) :
    matchNDigits 4 (a :: b :: c :: d :: r) = some ([a, b, c, d], r) := by
  simp [matchNDigits, ha, hb, hc, hd]

theorem vch_not_digit : ('v').isDigit = false := by decide

theorem matchIdCore_valid (l : List Char) (h : validIdShape l) :
    matchIdCore l = some (l, []) := by
  obtain ⟨a, b, c, d, n, v, rfl, ⟨ha, hb, hc, hd⟩, ⟨hlen, hall⟩, hv⟩ := h
  rcases n with _ | ⟨e, _ | ⟨f, _ | ⟨g, _ | ⟨k, _ | ⟨m, tail⟩⟩⟩⟩⟩ <;>
    simp only [List.length_cons, List.length_nil] at hlen
  · omega
  · omega
  · omega
  · omega
  · simp only [List.all_cons, List.all_nil, Bool.and_eq_true, and_true] at hall
    obtain ⟨he, hf, hg, hk⟩ := hall
    rcases hv with rfl | ⟨p, hp, rfl⟩ | ⟨p, q, hp, hq, rfl⟩ <;>
      simp [matchIdCore, matchNDigits_four, matchVer, ha, hb, hc, hd, he, hf, hg, hk,
        vch_not_digit, *]
  · have ht : tail = [] := List.length_eq_zero.mp (by omega)
    subst ht
    simp only [List.all_cons, List.all_nil, Bool.and_eq_true, and_true] at hall
    obtain ⟨he, hf, hg, hk, hm⟩ := hall
    rcases hv with rfl | ⟨p, hp, rfl⟩ | ⟨p, q, hp, hq, rfl⟩ <;>
      simp [matchIdCore, matchNDigits_four, matchVer, ha, hb, hc, hd, he, hf, hg, hk, hm,
        vch_not_digit, *]

theorem http_data_eq : ("http").data = ['h', 't', 't', 'p'] := rfl

theorem matchUrlPart_none_of_digit (a : Char) (cs : List Char) (ha : a.isDigit = true) :
    matchUrlPart (a :: cs) = none := by
  have h1 : a ≠ 'h' := isDigit_ne_of a 'h' ha (by decide)
  simp [matchUrlPart, http_data_eq, matchLit, h1]

theorem tryMatchAt_valid (l : List Char) (h : validIdShape l) : tryMatchAt l = some l := by
  have hcore := matchIdCore_valid l h
  obtain ⟨a, b, c, d, n, v, rfl, ⟨ha, _⟩, _, _⟩ := h
  simp [tryMatchAt, matchUrlPart_none_of_digit a _ ha, hcore]

theorem regexSearchAux_of_tryMatch (s g : List Char) (h : tryMatchAt s = some g) :
    regexSearchAux s = some g := by
  cases s with
  | nil => simpa [regexSearchAux] using h
  | cons c cs => simp [regexSearchAux, h]

theorem matchIdCore_none_of_not_digit (c : Char) (cs : List Char)
    (hc : c.isDigit = false) : matchIdCore (c :: cs) = none := by
  simp [matchIdCore, matchNDigits, hc]

theorem scan_skip (c : Char) (cs : List Char) (hh : c ≠ 'h') (hd : c.isDigit = false) :
    regexSearchAux (c :: cs) = regexSearchAux cs := by
  have hurl : matchUrlPart (c :: cs) = none := by
    simp [matchUrlPart, http_data_eq, matchLit, hh]
  have ht : tryMatchAt (c :: cs) = none := by
    simp [tryMatchAt, hurl, matchIdCore_none_of_not_digit c cs hd]
  simp [regexSearchAux, ht]

theorem scan_skip_all (p s : List Char)
    (h : p.all (fun c => !(c == 'h') && !c.isDigit) = true) :
    regexSearchAux (p ++ s) = regexSearchAux s := by
  induction p with
  | nil => simp
  | cons a t ih =>
    simp only [List.all_cons, Bool.and_eq_true, Bool.not_eq_true', beq_eq_false_iff_ne,
      Bool.not_eq_true] at h
    rw [List.cons_append, scan_skip a _ h.1.1 h.1.2]
    exact ih (by simp only [List.all_eq_true] at *; exact fun x hx => h.2 x hx)

theorem tryMatchAt_url (u : String) (l : List Char)
    (h : matchUrlPart (u.data ++ l) = some l)
    (hcore : matchIdCore l = some (l, [])) :
    tryMatchAt (u.data ++ l) = some l := by
  simp [tryMatchAt, h, hcore]

theorem parse_eval (u : String) (l : List Char)
    (hs : regexSearchAux (u.data ++ l) = some l)
    (hall : (u.data ++ l).all (fun c => !isSpaceChar c) = true) :
    parse_arxiv_id (u ++ (⟨l⟩ : String)) = .ok ⟨l⟩ := by
  have hdata : (u ++ (⟨l⟩ : String)).data = u.data ++ l := rfl
  simp [parse_arxiv_id, hdata, pyStrip_eq_self _ hall, hs]

theorem validIdShape_no_space (l : List Char) (h : validIdShape l) :
    l.all (fun c => !isSpaceChar c) = true := by
  obtain ⟨a, b, c, d, n, v, rfl, ⟨ha, hb, hc, hd⟩, ⟨_, hall⟩, hv⟩ := h
  have hns : ∀ x : Char, x.isDigit = true → (!isSpaceChar x) = true := fun x hx => by
    simp [space_false_of_digit x hx]
  simp only [List.all_cons, List.all_append, Bool.and_eq_true]
  refine ⟨hns a ha, hns b hb, hns c hc, hns d hd, by decide, ?_, ?_⟩
  · simp only [List.all_eq_true] at hall ⊢
    exact fun x hx => hns x (hall x hx)
  · rcases hv with rfl | ⟨p, hp, rfl⟩ | ⟨p, q, hp, hq, rfl⟩ <;>
      simp only [List.all_cons, List.all_nil, Bool.and_eq_true, and_true] <;>
      first
        | trivial
        | exact ⟨by decide, hns p hp⟩
        | exact ⟨by decide, hns p hp, hns q hq⟩

/-- C6: for every valid raw id of shape YYMM.NNNNN or YYMM.NNNNNvK, and for
every URL variant wrapping it (abs/, pdf/ or e-print/ paths, with or without
http(s) scheme and with or without www.), parse_arxiv_id returns exactly the
embedded id string. -/
theorem C6_parse_urls (u : String) (l : List Char)
    (hu : u ∈ urlWrappers) (hl : validIdShape l) :
    parse_arxiv_id (u ++ (⟨l⟩ : String)) = .ok ⟨l⟩ := by
  have hall := validIdShape_no_space l hl
  have hcore := matchIdCore_valid l hl
  have htry := tryMatchAt_valid l hl
  fin_cases hu <;>
    refine parse_eval _ _ ?_
      (by simp only [List.all_append, Bool.and_eq_true]; exact ⟨by decide, hall⟩) <;>
    first
      | exact regexSearchAux_of_tryMatch _ _ (tryMatchAt_url _ _ rfl hcore)
      | exact (scan_skip_all _ _ (by decide)).trans (regexSearchAux_of_tryMatch _ _ htry)

theorem C6_parse_urls_witness :
    parse_arxiv_id ("https://arxiv.org/abs/2301.00001v2") = .ok ("2301.00001v2") := by
  have hl : validIdShape (("2301.00001v2").data) :=
    ⟨'2', '3', '0', '1', ['0', '0', '0', '0', '1'], ['v', '2'], rfl, by decide, by decide,
      Or.inr (Or.inl ⟨'2', by decide, rfl⟩)⟩
  exact C6_parse_urls ("https://arxiv.org/abs/") (("2301.00001v2").data)
    (by simp [urlWrappers]) hl

/-- C9: parse_arxiv_id succeeds on any input that merely contains a substring
matching the id pattern anywhere inside it, returning the leftmost match; in
particular xx2301.00001yy yields 2301.00001.  The second conjunct is the
leftmost-match characterisation of the underlying search. -/
theorem C9_substring_search :
    parse_arxiv_id ("xx2301.00001yy") = .ok ("2301.00001") ∧
    ∀ (s : List Char) (i : Nat) (g : List Char),
      tryMatchAt (List.drop i s) = some g →
      (∀ j, j < i → tryMatchAt (List.drop j s) = none) →
      regexSearchAux s = some g := by
  constructor
  · rfl
  · intro s i g
    induction i generalizing s with
    | zero =>
      intro h _
      simp only [List.drop_zero] at h
      exact regexSearchAux_of_tryMatch _ _ h
    | succ n ih =>
      intro h hnone
      cases s with
      | nil =>
        have h0 := hnone 0 (Nat.succ_pos n)
        simp only [List.drop_nil] at h0 h
        rw [h0] at h
        exact Option.noConfusion h
      | cons c cs =>
        have h0 := hnone 0 (Nat.succ_pos n)
        simp only [List.drop_zero] at h0
        rw [regexSearchAux, h0]
        exact ih cs (by simpa using h)
          (fun j hj => by simpa using hnone (j + 1) (Nat.succ_lt_succ hj))

theorem C9_substring_search_witness :
    regexSearchAux (("a2301.00001").data) = some (("2301.00001").data) := by
  refine C9_substring_search.2 (("a2301.00001").data) 1 (("2301.00001").data) rfl ?_
  intro j hj
  have hj0 : j = 0 := by omega
  subst hj0
  rfl

/-- C1: in both rewriting passes every \twocolumn directive is rewritten to
\onecolumn with a bracketed optional argument preserved brace-free after it.
This holds for the main-document pass and for the bracket-immediately-after
case, but the style-file pass mishandles whitespace before the bracket: on
the failing input the style-file replacement drops the leading whitespace
character instead of the opening bracket, emitting \onecolumn [\maketitle,
while its twin replace_twocolumn_tex strips correctly. -/
theorem C1_style_twocolumn_behavior :
    replaceTwocolumnSty ("\\twocolumn [\\maketitle]") = ("\\onecolumn [\\maketitle") ∧
    replaceTwocolumnSty ("\\twocolumn [\\maketitle]") ≠ ("\\onecolumn \\maketitle") ∧
    replaceTwocolumnTexLine ("\\twocolumn [\\maketitle]") = ("\\onecolumn \\maketitle") ∧
    replaceTwocolumnSty ("\\twocolumn[\\maketitle]") = ("\\onecolumn \\maketitle") ∧
    replaceTwocolumnTexLine ("\\twocolumn[\\maketitle]") = ("\\onecolumn \\maketitle") := by
  refine ⟨rfl, by decide, rfl, rfl, rfl⟩

/-- C2 counterexample: on a minimal landscape document the lines inserted
before the body-start marker are pdflscape, pagestyle, times, the conditional
geometry load and the geometry settings, in that order; the claim's order
(times before pagestyle) does not occur. -/
theorem C2_insert_order_counterexample :
    process_tex_lines true (geometricSettings 4 6 ("0.2"))
        [("\\documentclass\x7barticle\x7d"), ("\\begin\x7bdocument\x7d"),
         ("hello"), ("\\end\x7bdocument\x7d")]
      = .ok [("\\documentclass[onecolumn]\x7barticle\x7d"),
             ("\\usepackage\x7bpdflscape\x7d\n"),
             ("\\pagestyle\x7bempty\x7d\n"),
             ("\\usepackage\x7btimes\x7d\n"),
             ("\\makeatletter\\@ifpackageloaded\x7bgeometry\x7d\x7b\x7d\x7b\\usepackage\x7bgeometry\x7d\x7d\\makeatother\n"),
             ("\\geometry\x7bpaperwidth=4in,paperheight=6in,margin=0.2in\x7d\n"),
             ("\\begin\x7bdocument\x7d"), ("hello"), ("\\end\x7bdocument\x7d")] ∧
    process_tex_lines true (geometricSettings 4 6 ("0.2"))
        [("\\documentclass\x7barticle\x7d"), ("\\begin\x7bdocument\x7d"),
         ("hello"), ("\\end\x7bdocument\x7d")]
      ≠ .ok [("\\documentclass[onecolumn]\x7barticle\x7d"),
             ("\\usepackage\x7bpdflscape\x7d\n"),
             ("\\usepackage\x7btimes\x7d\n"),
             ("\\pagestyle\x7bempty\x7d\n"),
             ("\\makeatletter\\@ifpackageloaded\x7bgeometry\x7d\x7b\x7d\x7b\\usepackage\x7bgeometry\x7d\x7d\\makeatother\n"),
             ("\\geometry\x7bpaperwidth=4in,paperheight=6in,margin=0.2in\x7d\n"),
             ("\\begin\x7bdocument\x7d"), ("hello"), ("\\end\x7bdocument\x7d")] := by
  refine ⟨rfl, fun h2 => absurd (Except.ok.inj ((rfl :
    process_tex_lines true (geometricSettings 4 6 ("0.2"))
        [("\\documentclass\x7barticle\x7d"), ("\\begin\x7bdocument\x7d"),
         ("hello"), ("\\end\x7bdocument\x7d")]
      = .ok [("\\documentclass[onecolumn]\x7barticle\x7d"),
             ("\\usepackage\x7bpdflscape\x7d\n"),
             ("\\pagestyle\x7bempty\x7d\n"),
             ("\\usepackage\x7btimes\x7d\n"),
             ("\\makeatletter\\@ifpackageloaded\x7bgeometry\x7d\x7b\x7d\x7b\\usepackage\x7bgeometry\x7d\x7d\\makeatother\n"),
             ("\\geometry\x7bpaperwidth=4in,paperheight=6in,margin=0.2in\x7d\n"),
             ("\\begin\x7bdocument\x7d"), ("hello"), ("\\end\x7bdocument\x7d")]).symm.trans h2))
    (by decide)⟩

/-- C2 amended: whenever the main-document pass succeeds, the lines inserted
immediately before the body-start marker are, in this order, the landscape
package import (landscape only), the empty-page-style directive, the
serif-font directive, the conditional geometry load, and the geometry
settings built from the mapping as comma-joined pairs with in suffixes. -/
theorem C2_insert_order_amended (l : Bool) (lines : List String) (out : List String)
    (h : process_tex_lines l (geometricSettings 4 6 ("0.2")) lines = .ok out) :
    ∃ k,
      strStartsWith beginDocKw ((transformLines (filterLines lines)).getD k ("")) = true ∧
      out = ((transformLines (filterLines lines)).take k).map imgSubLine
        ++ (if l then [("\\usepackage\x7bpdflscape\x7d\n")] else [])
        ++ [("\\pagestyle\x7bempty\x7d\n"),
            ("\\usepackage\x7btimes\x7d\n"),
            ("\\makeatletter\\@ifpackageloaded\x7bgeometry\x7d\x7b\x7d\x7b\\usepackage\x7bgeometry\x7d\x7d\\makeatother\n"),
            ("\\geometry\x7bpaperwidth=4in,paperheight=6in,margin=0.2in\x7d\n")]
        ++ ((transformLines (filterLines lines)).drop k).map imgSubLine := by
  have hins : (insertedLines l (geometricSettings 4 6 ("0.2"))).map imgSubLine
      = (if l then [("\\usepackage\x7bpdflscape\x7d\n")] else [])
        ++ [("\\pagestyle\x7bempty\x7d\n"),
            ("\\usepackage\x7btimes\x7d\n"),
            ("\\makeatletter\\@ifpackageloaded\x7bgeometry\x7d\x7b\x7d\x7b\\usepackage\x7bgeometry\x7d\x7d\\makeatother\n"),
            ("\\geometry\x7bpaperwidth=4in,paperheight=6in,margin=0.2in\x7d\n")] := by
    cases l <;> rfl
  unfold process_tex_lines at h
  split at h
  · exact Except.noConfusion h
  next l0 rest hf =>
    rw [hf]
    split at h
    next hc =>
      obtain ⟨i, hi⟩ := List.length_eq_one.mp hc
      have hmem : i ∈ beginDocIdxs (transformLines (l0 :: rest)) := by
        rw [hi]
        exact List.mem_singleton_self i
      have hpred : strStartsWith beginDocKw ((transformLines (l0 :: rest)).getD i ("")) = true := by
        have h2 := List.mem_filter.mp (by unfold beginDocIdxs at hmem; exact hmem)
        simpa using h2.2
      obtain rfl : out = _ := (Except.ok.inj h).symm
      refine ⟨i, hpred, ?_⟩
      rw [hi]
      simp [List.map_append, hins, List.append_assoc]
    next hc => exact Except.noConfusion h

theorem C2_insert_order_witness :
    ∃ k,
      strStartsWith beginDocKw ((transformLines (filterLines
          [("\\documentclass\x7barticle\x7d"), ("\\begin\x7bdocument\x7d"),
           ("world"), ("\\end\x7bdocument\x7d")])).getD k ("")) = true ∧
      [("\\documentclass[onecolumn]\x7barticle\x7d"),
       ("\\pagestyle\x7bempty\x7d\n"),
       ("\\usepackage\x7btimes\x7d\n"),
       ("\\makeatletter\\@ifpackageloaded\x7bgeometry\x7d\x7b\x7d\x7b\\usepackage\x7bgeometry\x7d\x7d\\makeatother\n"),
       ("\\geometry\x7bpaperwidth=4in,paperheight=6in,margin=0.2in\x7d\n"),
       ("\\begin\x7bdocument\x7d"), ("world"), ("\\end\x7bdocument\x7d")]
        = ((transformLines (filterLines
              [("\\documentclass\x7barticle\x7d"), ("\\begin\x7bdocument\x7d"),
               ("world"), ("\\end\x7bdocument\x7d")])).take k).map imgSubLine
          ++ (if false then [("\\usepackage\x7bpdflscape\x7d\n")] else [])
          ++ [("\\pagestyle\x7bempty\x7d\n"),
              ("\\usepackage\x7btimes\x7d\n"),
              ("\\makeatletter\\@ifpackageloaded\x7bgeometry\x7d\x7b\x7d\x7b\\usepackage\x7bgeometry\x7d\x7d\\makeatother\n"),
              ("\\geometry\x7bpaperwidth=4in,paperheight=6in,margin=0.2in\x7d\n")]
          ++ ((transformLines (filterLines
                [("\\documentclass\x7barticle\x7d"), ("\\begin\x7bdocument\x7d"),
                 ("world"), ("\\end\x7bdocument\x7d")])).drop k).map imgSubLine :=
  C2_insert_order_amended false
    [("\\documentclass\x7barticle\x7d"), ("\\begin\x7bdocument\x7d"),
     ("world"), ("\\end\x7bdocument\x7d")]
    [("\\documentclass[onecolumn]\x7barticle\x7d"),
     ("\\pagestyle\x7bempty\x7d\n"),
     ("\\usepackage\x7btimes\x7d\n"),
     ("\\makeatletter\\@ifpackageloaded\x7bgeometry\x7d\x7b\x7d\x7b\\usepackage\x7bgeometry\x7d\x7d\\makeatother\n"),
     ("\\geometry\x7bpaperwidth=4in,paperheight=6in,margin=0.2in\x7d\n"),
     ("\\begin\x7bdocument\x7d"), ("world"), ("\\end\x7bdocument\x7d")]
    rfl

/-- C3: rewriting the document-class line
\documentclass[11pt,twocolumn,a4paper]\x7barticle\x7d yields a line in which
onecolumn occurs as an option and none of 11pt, twocolumn, a4paper occurs;
the point-size, column and paper tokens are stripped, the comma artifacts
are cleaned, and onecolumn is prepended to the existing option list, while a
class line without options gets a synthesized [onecolumn] list. -/
theorem C3_documentclass_rewrite :
    processDocclassLine (("\\documentclass[11pt,twocolumn,a4paper]\x7barticle\x7d").data)
      = (("\\documentclass[onecolumn,]\x7barticle\x7d").data) ∧
    hasSubstr (("onecolumn").data)
      (processDocclassLine (("\\documentclass[11pt,twocolumn,a4paper]\x7barticle\x7d").data)) = true ∧
    hasSubstr (("11pt").data)
      (processDocclassLine (("\\documentclass[11pt,twocolumn,a4paper]\x7barticle\x7d").data)) = false ∧
    hasSubstr (("twocolumn").data)
      (processDocclassLine (("\\documentclass[11pt,twocolumn,a4paper]\x7barticle\x7d").data)) = false ∧
    hasSubstr (("a4paper").data)
      (processDocclassLine (("\\documentclass[11pt,twocolumn,a4paper]\x7barticle\x7d").data)) = false ∧
    processDocclassLine (("\\documentclass\x7barticle\x7d").data)
      = (("\\documentclass[onecolumn]\x7barticle\x7d").data) := by
  refine ⟨rfl, by decide, by decide, by decide, by decide, rfl⟩

theorem igMatch_direct (f u : List Char) (hne : f ≠ []) (hf : f.all isFracChar = true)
    (hu : u = ("line").data ∨ u = ("text").data) :
    igMatch (kwIncludegraphics ++ (f ++ '\\' :: (u ++ ("width]").data))) = some (f, []) := by
  obtain ⟨fc, ft, rfl⟩ : ∃ fc ft, f = fc :: ft := by
    rcases f with _ | ⟨fc, ft⟩
    · exact absurd rfl hne
    · exact ⟨fc, ft, rfl⟩
  have htk : List.takeWhile isFracChar ((fc :: ft) ++ '\\' :: (u ++ ("width]").data))
      = fc :: ft := by
    rw [takeWhile_append_all _ _ _ hf, List.takeWhile_cons_of_neg]
    · simp
    · decide
  have hdr : List.dropWhile isFracChar ((fc :: ft) ++ '\\' :: (u ++ ("width]").data))
      = '\\' :: (u ++ ("width]").data) := by
    rw [dropWhile_append_all _ _ _ hf, List.dropWhile_cons_of_neg]
    decide
  rcases hu with rfl | rfl <;>
    · simp only [igMatch, matchLit_self_append]
      rw [htk, hdr]
      simp only [List.isEmpty_cons]
      rfl

theorem subIncludegraphics_single (s f : List Char) (h : igMatch s = some (f, [])) :
    subIncludegraphics s = igRepl f := by
  cases s with
  | nil => exact Option.noConfusion ((rfl : igMatch [] = none).symm.trans h)
  | cons c cs =>
    show subIncludegraphicsF (cs.length + 1) (c :: cs) = _
    simp [subIncludegraphicsF, h]
    cases cs.length <;> rfl

/-- C4: every image-inclusion directive whose width is a decimal fraction F
of line width or text width is rewritten to one setting width F of text
width and height F of text height with the keepaspectratio flag; in
particular the 0.8-linewidth example is rewritten as specified. -/
theorem C4_includegraphics_rewrite (f u : List Char)
    (hne : f ≠ []) (hf : f.all isFracChar = true)
    (hu : u = ("line").data ∨ u = ("text").data) :
    subIncludegraphics (kwIncludegraphics ++ (f ++ '\\' :: (u ++ ("width]").data)))
      = ("\\includegraphics[width=").data ++ f ++ ("\\textwidth,height=").data ++ f
          ++ ("\\textheight,keepaspectratio]").data ∧
    imgSubLine ("\\includegraphics[width=0.8\\linewidth]\x7bfig.png\x7d")
      = ("\\includegraphics[width=0.8\\textwidth,height=0.8\\textheight,keepaspectratio]\x7bfig.png\x7d") := by
  refine ⟨?_, rfl⟩
  rw [subIncludegraphics_single _ _ (igMatch_direct f u hne hf hu)]
  simp [igRepl]

theorem C4_includegraphics_witness :
    subIncludegraphics (kwIncludegraphics
        ++ ((("0.8").data) ++ '\\' :: ((("line").data) ++ ("width]").data)))
      = ("\\includegraphics[width=").data ++ ("0.8").data ++ ("\\textwidth,height=").data
          ++ ("0.8").data ++ ("\\textheight,keepaspectratio]").data :=
  (C4_includegraphics_rewrite (("0.8").data) (("line").data)
    (by decide) (by decide) (Or.inl rfl)).1

/-- C5 counterexample: a main document containing two body-start markers
across the whole file, one of them in the middle of a line, converts
successfully instead of failing with the structure error. -/
theorem C5_marker_counterexample :
    countOccur (beginDocKw.data) ((joinNl
        [("\\documentclass\x7barticle\x7d"), ("\\begin\x7bdocument\x7d"),
         ("intro \\begin\x7bdocument\x7d extra"), ("\\end\x7bdocument\x7d")]).data) = 2 ∧
    process_tex_lines false (geometricSettings 4 6 ("0.2"))
        [("\\documentclass\x7barticle\x7d"), ("\\begin\x7bdocument\x7d"),
         ("intro \\begin\x7bdocument\x7d extra"), ("\\end\x7bdocument\x7d")]
      = .ok [("\\documentclass[onecolumn]\x7barticle\x7d"),
             ("\\pagestyle\x7bempty\x7d\n"),
             ("\\usepackage\x7btimes\x7d\n"),
             ("\\makeatletter\\@ifpackageloaded\x7bgeometry\x7d\x7b\x7d\x7b\\usepackage\x7bgeometry\x7d\x7d\\makeatother\n"),
             ("\\geometry\x7bpaperwidth=4in,paperheight=6in,margin=0.2in\x7d\n"),
             ("\\begin\x7bdocument\x7d"), ("intro \\begin\x7bdocument\x7d extra"),
             ("\\end\x7bdocument\x7d")] := by
  refine ⟨by decide, rfl⟩

/-- C5 amended: conversion fails with the structure error exactly when the
number of comment-and-blank-filtered, rewritten lines that start with the
body-start marker differs from one, and succeeds (producing output, hence a
compilable document) when that count is one. -/
theorem C5_marker_amended (l : Bool) (geo : List (String × String)) (lines : List String)
    (h : filterLines lines ≠ []) :
    ((beginDocIdxs (transformLines (filterLines lines))).length ≠ 1 →
      process_tex_lines l geo lines
        = .error ("Expected 1 \\begin\x7bdocument\x7d, found "
            ++ toString (beginDocIdxs (transformLines (filterLines lines))).length)) ∧
    ((beginDocIdxs (transformLines (filterLines lines))).length = 1 →
      ∃ out, process_tex_lines l geo lines = .ok out) := by
  unfold process_tex_lines
  cases hf : filterLines lines with
  | nil => exact absurd hf h
  | cons l0 rest =>
    constructor
    · intro hne
      simp [hne]
    · intro he
      exact ⟨_, if_pos he⟩

theorem C5_marker_witness :
    process_tex_lines false (geometricSettings 4 6 ("0.2"))
        [("\\documentclass\x7barticle\x7d"), ("hello")]
      = .error ("Expected 1 \\begin\x7bdocument\x7d, found "
          ++ toString (beginDocIdxs (transformLines (filterLines
              [("\\documentclass\x7barticle\x7d"), ("hello")]))).length) :=
  (C5_marker_amended false (geometricSettings 4 6 ("0.2"))
    [("\\documentclass\x7barticle\x7d"), ("hello")] (by decide)).1 (by decide)

/-- C7 counterexample: a candidate file whose literal first line is a
comment and whose document-class declaration sits on the first non-trivial
line is selected under the spec reading but rejected by the code, which
inspects only the literal first line. -/
theorem C7_main_selection_counterexample :
    findMainTexSpec [("% preamble\n\\documentclass\x7barticle\x7d\nx")]
      = some ("% preamble\n\\documentclass\x7barticle\x7d\nx") ∧
    findMainTex [("% preamble\n\\documentclass\x7barticle\x7d\nx")] = none := ⟨rfl, rfl⟩

/-- C7 amended: the main document is selected by scanning the candidates in
order for the FIRST one whose literal first line contains the substring
documentclass.  A selected file passes that test and every candidate before
it fails it; when no candidate passes the test the scan returns nothing,
which the caller turns into the missing-main-file error; and when some
candidate passes the test, one is selected. -/
theorem C7_main_selection_amended (fs : List String) :
    (∀ f, findMainTex fs = some f →
      hasSubstr (("documentclass").data) (firstLine f).data = true ∧
      ∃ pre post, fs = pre ++ f :: post ∧
        ∀ g ∈ pre, hasSubstr (("documentclass").data) (firstLine g).data = false) ∧
    ((∀ f ∈ fs, hasSubstr (("documentclass").data) (firstLine f).data = false) →
      findMainTex fs = none) ∧
    (∀ f ∈ fs, hasSubstr (("documentclass").data) (firstLine f).data = true →
      ∃ g, findMainTex fs = some g) := by
  induction fs with
  | nil =>
    exact ⟨fun f h => Option.noConfusion h, fun _ => rfl,
      fun f hf _ => absurd hf (List.not_mem_nil f)⟩
  | cons g gs ih =>
    refine ⟨?_, ?_, ?_⟩
    · intro f h
      rw [findMainTex] at h
      by_cases hg : hasSubstr (("documentclass").data) (firstLine g).data = true
      · rw [if_pos hg] at h
        obtain rfl := Option.some.inj h
        exact ⟨hg, [], gs, rfl, fun x hx => absurd hx (List.not_mem_nil x)⟩
      · rw [if_neg hg] at h
        obtain ⟨h1, pre, post, hsplit, hpre⟩ := ih.1 f h
        refine ⟨h1, g :: pre, post, by rw [List.cons_append, hsplit], ?_⟩
        intro x hx
        rcases List.mem_cons.mp hx with rfl | hx2
        · exact Bool.eq_false_iff.mpr hg
        · exact hpre x hx2
    · intro hall
      rw [findMainTex, if_neg]
      · exact ih.2.1 (fun f hf => hall f (List.mem_cons_of_mem g hf))
      · rw [hall g (List.mem_cons_self g gs)]
        exact Bool.false_ne_true
    · intro f hf hq
      rw [findMainTex]
      by_cases hg : hasSubstr (("documentclass").data) (firstLine g).data = true
      · rw [if_pos hg]
        exact ⟨g, rfl⟩
      · rw [if_neg hg]
        rcases List.mem_cons.mp hf with rfl | hf2
        · exact absurd hq hg
        · exact ih.2.2 f hf2 hq

theorem C7_main_selection_witness :
    hasSubstr (("documentclass").data) (firstLine ("\\documentclass\x7bbook\x7d")).data = true ∧
    ∃ pre post,
      [("% notes\nplain text"), ("\\documentclass\x7bbook\x7d")]
        = pre ++ ("\\documentclass\x7bbook\x7d") :: post ∧
      ∀ g ∈ pre, hasSubstr (("documentclass").data) (firstLine g).data = false :=
  (C7_main_selection_amended [("% notes\nplain text"), ("\\documentclass\x7bbook\x7d")]).1
    ("\\documentclass\x7bbook\x7d") rfl

/-- C8: for every margin value at most 0 or at least 1 the CLI trace ends at
the usage error right after argument parsing, logging setup and the margin
check, containing no network or filesystem-write event; and in every trace,
whatever the margin, no network or filesystem-write event precedes the
margin check. -/
theorem C8_margin_gate (m : ℚ) (ok : Bool) (h : m ≤ 0 ∨ 1 ≤ m) :
    mainEvents m ok = [.parseArgs, .logSetup, .marginCheck, .usageErrorExit] ∧
    (∀ e ∈ mainEvents m ok, isNetworkEvent e = false ∧ isFsWriteEvent e = false) ∧
    (∀ m2 ok2, (mainEvents m2 ok2).takeWhile (fun e => !(e == MainEvent.marginCheck))
      = [.parseArgs, .logSetup]) := by
  have hcond : ¬(0 < m ∧ m < 1) := by
    rcases h with h | h
    · exact fun hx => absurd hx.1 (not_lt.mpr h)
    · exact fun hx => absurd hx.2 (not_lt.mpr h)
  have h1 : mainEvents m ok = [.parseArgs, .logSetup, .marginCheck, .usageErrorExit] := by
    simp [mainEvents, hcond]
  refine ⟨h1, ?_, ?_⟩
  · intro e he
    rw [h1] at he
    simp only [List.mem_cons, List.not_mem_nil, or_false] at he
    rcases he with rfl | rfl | rfl | rfl <;> exact ⟨rfl, rfl⟩
  · intro m2 ok2
    by_cases h2 : 0 < m2 ∧ m2 < 1 <;>
      simp [mainEvents, h2, List.takeWhile_cons]

theorem C8_margin_gate_witness :
    mainEvents 2 true = [.parseArgs, .logSetup, .marginCheck, .usageErrorExit] :=
  (C8_margin_gate 2 true (Or.inr (by norm_num))).1

/-- C10: a body-start marker is counted only when, after comment and blank
lines are dropped, its line begins exactly with the marker: a single
indented marker (the only occurrence in the whole file) still fails with the
structure error reporting zero markers, a marker on a comment line is not
counted, and an additional marker in the middle of a line is not counted. -/
theorem C10_marker_line_start :
    countOccur (beginDocKw.data) ((joinNl
        [("\\documentclass\x7barticle\x7d"), ("  \\begin\x7bdocument\x7d"),
         ("\\end\x7bdocument\x7d")]).data) = 1 ∧
    process_tex_lines false (geometricSettings 4 6 ("0.2"))
        [("\\documentclass\x7barticle\x7d"), ("  \\begin\x7bdocument\x7d"),
         ("\\end\x7bdocument\x7d")]
      = .error ("Expected 1 \\begin\x7bdocument\x7d, found 0") ∧
    process_tex_lines false (geometricSettings 4 6 ("0.2"))
        [("\\documentclass\x7barticle\x7d"), ("% \\begin\x7bdocument\x7d"),
         ("\\begin\x7bdocument\x7d"), ("x"), ("\\end\x7bdocument\x7d")]
      = .ok [("\\documentclass[onecolumn]\x7barticle\x7d"),
             ("\\pagestyle\x7bempty\x7d\n"),
             ("\\usepackage\x7btimes\x7d\n"),
             ("\\makeatletter\\@ifpackageloaded\x7bgeometry\x7d\x7b\x7d\x7b\\usepackage\x7bgeometry\x7d\x7d\\makeatother\n"),
             ("\\geometry\x7bpaperwidth=4in,paperheight=6in,margin=0.2in\x7d\n"),
             ("\\begin\x7bdocument\x7d"), ("x"), ("\\end\x7bdocument\x7d")] ∧
    process_tex_lines false (geometricSettings 4 6 ("0.2"))
        [("\\documentclass\x7barticle\x7d"), ("\\begin\x7bdocument\x7d"),
         ("ab \\begin\x7bdocument\x7d"), ("\\end\x7bdocument\x7d")]
      = .ok [("\\documentclass[onecolumn]\x7barticle\x7d"),
             ("\\pagestyle\x7bempty\x7d\n"),
             ("\\usepackage\x7btimes\x7d\n"),
             ("\\makeatletter\\@ifpackageloaded\x7bgeometry\x7d\x7b\x7d\x7b\\usepackage\x7bgeometry\x7d\x7d\\makeatother\n"),
             ("\\geometry\x7bpaperwidth=4in,paperheight=6in,margin=0.2in\x7d\n"),
             ("\\begin\x7bdocument\x7d"), ("ab \\begin\x7bdocument\x7d"),
             ("\\end\x7bdocument\x7d")] := by
  refine ⟨by decide, rfl, rfl, rfl⟩
